import Mathlib

/-!
# Verification of the energy-demand dashboard (`app.py`)

Shallow embedding of the core logic of the Dash dashboard:

* the data loader `load_data` (read CSV, parse `time`, set it as index,
  preserving row order — the loader does not sort);
* the window selector / chart builder `plot_series` (slice `data.loc[start:]`,
  trim the last `120 - proy` rows positionally, build a four-trace figure);
* the update callback `update_output_div` (guard on `None` inputs, build the
  start timestamp from the date string and the hour via
  `pd.to_datetime(..., format="%Y-%m-%d %H:%M")`, call `plot_series`);
* the hour dropdown of `generate_control_card` (options `np.arange(0,25)`).

Timestamps are modelled as integers (hours on a linear time axis); the numeric
megawatt payloads of the columns are modelled as integers as well — no claim
computes with the values, they are only carried through unchanged.  A pandas
`DataFrame` is modelled column-orientedly: an index plus named columns.
-/

/-- The Python exceptions that the dashboard code can raise.
`keyError` is a missing-column access (the spec's `MissingFieldError` /
`SchemaError`); `valueError` is a failed timestamp parse (the spec's
`ParseError`); `fileNotFoundError` is a missing source file (`NotFoundError`). -/
inductive PyError where
  | fileNotFoundError : PyError
  | keyError : String → PyError
  | valueError : PyError
deriving DecidableEq, Repr

/-- A pandas `DataFrame` with a timestamp index: the index column and the named
value columns, kept in column-oriented form exactly as pandas stores them.
Well-formedness (each column as long as the index) is `DataFrame.WF`. -/
structure DataFrame where
  index : List Int
  cols : List (String × List Int)
deriving DecidableEq, Repr

/-- Every column of the frame has exactly one value per index entry. -/
def DataFrame.WF (df : DataFrame) : Prop :=
  ∀ c ∈ df.cols, c.2.length = df.index.length

instance (df : DataFrame) : Decidable df.WF := by
  unfold DataFrame.WF; infer_instance

/-- `df[c]`: pandas column access, raising `KeyError` when the column is
absent. -/
def DataFrame.getCol (df : DataFrame) (c : String) : Except PyError (List Int) :=
  match df.cols.lookup c with
  | some ys => .ok ys
  | none => .error (.keyError c)

/-- `df.loc[start:]` on a monotonically increasing `DatetimeIndex`: the suffix
of rows starting at the first index entry `≥ start` (pandas `searchsorted`
left bound).  Positionally, the first `k` rows are dropped where `k` counts
the leading index entries `< start`. -/
def DataFrame.locFrom (df : DataFrame) (start : Int) : DataFrame :=
  let k := (df.index.takeWhile (fun t => t < start)).length
  ⟨df.index.drop k, df.cols.map (fun c => (c.1, c.2.drop k))⟩

/-- The positional stop of the Python slice `xs[:-m]` over `n` rows, for any
integer `m`: a negative stop counts from the end (clamped at `0`), a stop of
`0` (from `m = 0`, since `-0 = 0`) selects nothing, and a positive stop
(from `m < 0`) selects a prefix. -/
def pySliceStop (n : Nat) (m : Int) : Nat :=
  if m = 0 then 0
  else if 0 < m then ((n : Int) - m).toNat
  else (-m).toNat

/-- `df[:-m]`: positional row slicing of a `DataFrame`, keeping the first
`pySliceStop` rows of the index and of every column. -/
def DataFrame.trimTail (df : DataFrame) (m : Int) : DataFrame :=
  let stop := pySliceStop df.index.length m
  ⟨df.index.take stop, df.cols.map (fun c => (c.1, c.2.take stop))⟩

/-- One `go.Scatter` trace: name, coordinates and the styling attributes the
source sets (`mode`, `line=dict(color=...)` / `line=dict(width=0)`,
`marker=dict(color=...)`, `fill` / `fillcolor`, `showlegend`; plotly's
default for `showlegend` is `true`). -/
structure Scatter where
  name : String
  x : List Int
  y : List Int
  mode : String
  lineColor : Option String
  lineWidth : Option Nat
  markerColor : Option String
  fill : Option String
  fillcolor : Option String
  showlegend : Bool
deriving DecidableEq, Repr

/-- The legend block of `fig.update_layout`. -/
structure Legend where
  orientation : String
  yanchor : String
  yPos : Rat
  xanchor : String
  xPos : Rat
deriving DecidableEq, Repr

/-- The layout metadata `plot_series` sets via `update_layout`,
`update_xaxes` and `update_yaxes`. -/
structure Layout where
  legend : Legend
  yaxisTitle : String
  hovermode : String
  paperBgcolor : String
  plotBgcolor : String
  fontColor : String
  xaxisShowgrid : Bool
  xaxisGridwidth : Rat
  xaxisGridcolor : String
  yaxisShowgrid : Bool
  yaxisGridwidth : Rat
  yaxisGridcolor : String
deriving DecidableEq, Repr

/-- A `plotly.graph_objs.Figure`: the ordered traces and the layout. -/
structure Figure where
  traces : List Scatter
  layout : Layout
deriving DecidableEq, Repr

/-- The layout that `plot_series` always applies: horizontal legend anchored
top-right (above the plot area), megawatt y-axis title, hover by x,
transparent paper and plot backgrounds, gridlines on both axes. -/
def plotSeriesLayout : Layout :=
  { legend :=
      { orientation := "h", yanchor := "bottom", yPos := (102 : Rat) / 100,
        xanchor := "right", xPos := 1 }
    yaxisTitle := "Demanda total [MW]"
    hovermode := "x"
    paperBgcolor := "rgba(0,0,0,0)"
    plotBgcolor := "rgba(0,0,0,0)"
    fontColor := "#2cfec1"
    xaxisShowgrid := true
    xaxisGridwidth := (25 : Rat) / 100
    xaxisGridcolor := "#7C7C7C"
    yaxisShowgrid := true
    yaxisGridwidth := (25 : Rat) / 100
    yaxisGridcolor := "#7C7C7C" }

/-- `plot_series(data, initial_date, proy)`: slice the frame from
`initial_date`, trim the last `120 - proy` rows, and build the four-trace
figure.  The four column accesses are evaluated in the order the `go.Scatter`
constructors are, so the first missing column raises before any figure is
returned. -/
def plot_series (data : DataFrame) (initial_date : Int) (proy : Int) :
    Except PyError Figure := do
  let data_plot := (data.locFrom initial_date).trimTail (120 - proy)
  let demanda ← data_plot.getCol "AT_load_actual_entsoe_transparency"
  let forecast ← data_plot.getCol "forecast"
  let upper ← data_plot.getCol "Upper bound"
  let lower ← data_plot.getCol "Lower bound"
  let fig : Figure :=
    { traces :=
        [ { name := "Demanda energética", x := data_plot.index, y := demanda,
            mode := "lines", lineColor := some "#188463", lineWidth := none,
            markerColor := none, fill := none, fillcolor := none,
            showlegend := true },
          { name := "Proyección", x := data_plot.index, y := forecast,
            mode := "lines", lineColor := some "#bbffeb", lineWidth := none,
            markerColor := none, fill := none, fillcolor := none,
            showlegend := true },
          { name := "Upper Bound", x := data_plot.index, y := upper,
            mode := "lines", lineColor := none, lineWidth := some 0,
            markerColor := some "#444", fill := none, fillcolor := none,
            showlegend := false },
          { name := "Lower Bound", x := data_plot.index, y := lower,
            mode := "lines", lineColor := none, lineWidth := some 0,
            markerColor := some "#444", fill := some "tonexty",
            fillcolor := some "rgba(242, 255, 251, 0.3)",
            showlegend := false } ],
      layout := plotSeriesLayout }
  return fig

/-- The external CSV source file `datos_energia.csv`: the parsed `time`
column and the remaining named columns, in file row order. -/
structure CsvSource where
  times : List Int
  cols : List (String × List Int)
deriving DecidableEq, Repr

/-- `load_data()`: read the CSV, convert `time` to datetime and set it as the
index.  Row order is preserved from the source — the loader does not sort. -/
def load_data (src : CsvSource) : DataFrame :=
  ⟨src.times, src.cols⟩

/-- Models `pd.to_datetime(s, format="%Y-%m-%d %H:%M")` applied to the string
`date ++ " " ++ toString hour ++ ":0"` built by `update_output_div`, with the
date rendered as a day number on the hour axis: the `%H` directive accepts
only hours `0..23` and `%M` only minutes `0..59`; anything else raises
`ValueError`.  On success the timestamp is `day * 24 + hour`. -/
def to_datetime_fmt (day : Int) (hour : Int) (minute : Int) :
    Except PyError Int :=
  if 0 ≤ hour ∧ hour ≤ 23 ∧ 0 ≤ minute ∧ minute ≤ 59 then
    .ok (day * 24 + hour)
  else .error .valueError

/-- The options of the hour dropdown in `generate_control_card`:
`np.arange(0, 25)`, i.e. the integers `0..24` inclusive. -/
def hour_dropdown_options : List Int :=
  (List.range 25).map (fun i => (i : Int))

/-- `update_output_div(date, hour, proy)`: if any input is `None` the guard
fails and the callback implicitly returns `None` (outer `none`); otherwise the
start timestamp is parsed and `plot_series` is called.  `some (.error e)`
models an exception escaping the callback, `some (.ok fig)` a returned
figure. -/
def update_output_div (data : DataFrame) (date : Option Int)
    (hour : Option Int) (proy : Option Int) :
    Option (Except PyError Figure) :=
  match date, hour, proy with
  | some d, some h, some p =>
      some (do
        let initial_date ← to_datetime_fmt d h 0
        plot_series data initial_date p)
  | _, _, _ => none

/-- Modelled from the spec: the Dash rendering surface keeps the previously
rendered figure when the callback returns nothing ("Dash conservará la figura
anterior") — the framework side of the no-op rule, which lives in the Dash
library rather than in `app.py`. -/
def displayedFigure (prev : Option Figure)
    (result : Option (Except PyError Figure)) : Option Figure :=
  match result with
  | some (.ok fig) => some fig
  | _ => prev

/-- The four columns `plot_series` reads, in access order. -/
def requiredCols : List String :=
  ["AT_load_actual_entsoe_transparency", "forecast", "Upper bound",
   "Lower bound"]

/-- All four required columns are present in the frame. -/
def DataFrame.HasRequiredCols (df : DataFrame) : Prop :=
  ∀ c ∈ requiredCols, (df.cols.lookup c).isSome

instance (df : DataFrame) : Decidable df.HasRequiredCols := by
  unfold DataFrame.HasRequiredCols; infer_instance

/-- The number of records of the table at or after `start` ("points from
`start` to the end of the table"). -/
def pointsFrom (df : DataFrame) (start : Int) : Nat :=
  (df.locFrom start).index.length

/-! ## Helper lemmas -/

theorem lookup_map_snd {β γ : Type} (l : List (String × β)) (f : β → γ)
    (a : String) :
    (l.map (fun c => (c.1, f c.2))).lookup a = (l.lookup a).map f := by
  induction l with
  | nil => rfl
  | cons hd tl ih =>
      obtain ⟨k, b⟩ := hd
      by_cases h : a = k
      · have hb : (a == k) = true := beq_iff_eq.mpr h
        simp [List.lookup, hb]
      · have hb : (a == k) = false := beq_eq_false_iff_ne.mpr h
        simp [List.lookup, hb, ih]

theorem mem_of_lookup_some {l : List (String × List Int)} {c : String}
    {ys : List Int} (h : l.lookup c = some ys) : (c, ys) ∈ l := by
  induction l with
  | nil => simp [List.lookup] at h
  | cons hd tl ih =>
      obtain ⟨k, b⟩ := hd
      by_cases hck : c = k
      · subst hck
        have hb : (c == c) = true := beq_iff_eq.mpr rfl
        simp [List.lookup, hb] at h
        simp [h]
      · have hb : (c == k) = false := beq_eq_false_iff_ne.mpr hck
        simp [List.lookup, hb] at h
        exact List.mem_cons_of_mem _ (ih h)

theorem getCol_ok_iff {df : DataFrame} {c : String} {ys : List Int} :
    df.getCol c = .ok ys ↔ df.cols.lookup c = some ys := by
  unfold DataFrame.getCol
  cases h : df.cols.lookup c <;> simp

theorem getCol_locFrom (df : DataFrame) (s : Int) (c : String) :
    (df.locFrom s).getCol c =
      (df.getCol c).map
        (fun ys => ys.drop ((df.index.takeWhile (fun t => t < s)).length)) := by
  cases h : df.cols.lookup c <;>
    simp [DataFrame.getCol, DataFrame.locFrom, lookup_map_snd, h, Except.map]

theorem getCol_trimTail (df : DataFrame) (m : Int) (c : String) :
    (df.trimTail m).getCol c =
      (df.getCol c).map
        (fun ys => ys.take (pySliceStop df.index.length m)) := by
  cases h : df.cols.lookup c <;>
    simp [DataFrame.getCol, DataFrame.trimTail, lookup_map_snd, h, Except.map]

theorem bind_ok_except {ε α β : Type} (a : α) (f : α → Except ε β) :
    (Except.ok a >>= f) = f a := rfl

theorem bind_error_except {ε α β : Type} (e : ε) (f : α → Except ε β) :
    ((Except.error e : Except ε α) >>= f) = Except.error e := rfl

theorem pure_eq_ok {ε α : Type} (a : α) :
    (pure a : Except ε α) = Except.ok a := rfl

theorem index_locFrom (df : DataFrame) (s : Int) :
    (df.locFrom s).index =
      df.index.drop ((df.index.takeWhile (fun t => t < s)).length) := rfl

theorem index_trimTail (df : DataFrame) (m : Int) :
    (df.trimTail m).index =
      df.index.take (pySliceStop df.index.length m) := rfl

/-- The positional stop of `xs[:-(120 - proy)]` for a valid horizon
`0 ≤ proy ≤ 119` is the truncated subtraction `n - (120 - proy)`. -/
theorem pySliceStop_horizon (n : Nat) (p : Int) (hp0 : 0 ≤ p)
    (hp1 : p ≤ 119) :
    pySliceStop n (120 - p) = n - (120 - p).toNat := by
  unfold pySliceStop
  split
  · omega
  · split <;> omega

/-- The index of the window `data.loc[start:][:-(120-proy)]` computed by
`plot_series`: the x-coordinates of all four traces. -/
def windowIndex (df : DataFrame) (s p : Int) : List Int :=
  ((df.locFrom s).trimTail (120 - p)).index

/-- What becomes of a full column `ys` of `df` under the window
`data.loc[start:][:-(120-proy)]`: the y-coordinates of a trace. -/
def windowCol (df : DataFrame) (s p : Int) (ys : List Int) : List Int :=
  (ys.drop ((df.index.takeWhile (fun t => t < s)).length)).take
    (pySliceStop (pointsFrom df s) (120 - p))

/-- Column access on the window computed by `plot_series`. -/
theorem window_getCol (df : DataFrame) (s p : Int) (c : String)
    (ys : List Int) (h : df.cols.lookup c = some ys) :
    ((df.locFrom s).trimTail (120 - p)).getCol c = .ok (windowCol df s p ys) := by
  rw [getCol_trimTail, getCol_locFrom, getCol_ok_iff.mpr h]
  rfl

/-- Master computation lemma: when all four required columns are present,
`plot_series` succeeds and returns exactly the four-trace figure over the
window, with the styling of the source and the fixed layout. -/
theorem plot_series_ok_eq (df : DataFrame) (s p : Int)
    (yd yf yu yl : List Int)
    (h1 : df.cols.lookup "AT_load_actual_entsoe_transparency" = some yd)
    (h2 : df.cols.lookup "forecast" = some yf)
    (h3 : df.cols.lookup "Upper bound" = some yu)
    (h4 : df.cols.lookup "Lower bound" = some yl) :
    plot_series df s p = .ok
      { traces :=
          [ { name := "Demanda energética", x := windowIndex df s p,
              y := windowCol df s p yd, mode := "lines",
              lineColor := some "#188463", lineWidth := none,
              markerColor := none, fill := none, fillcolor := none,
              showlegend := true },
            { name := "Proyección", x := windowIndex df s p,
              y := windowCol df s p yf, mode := "lines",
              lineColor := some "#bbffeb", lineWidth := none,
              markerColor := none, fill := none, fillcolor := none,
              showlegend := true },
            { name := "Upper Bound", x := windowIndex df s p,
              y := windowCol df s p yu, mode := "lines",
              lineColor := none, lineWidth := some 0,
              markerColor := some "#444", fill := none, fillcolor := none,
              showlegend := false },
            { name := "Lower Bound", x := windowIndex df s p,
              y := windowCol df s p yl, mode := "lines",
              lineColor := none, lineWidth := some 0,
              markerColor := some "#444", fill := some "tonexty",
              fillcolor := some "rgba(242, 255, 251, 0.3)",
              showlegend := false } ],
        layout := plotSeriesLayout } := by
  have e1 := window_getCol df s p _ yd h1
  have e2 := window_getCol df s p _ yf h2
  have e3 := window_getCol df s p _ yu h3
  have e4 := window_getCol df s p _ yl h4
  simp [plot_series, e1, e2, e3, e4, bind_ok_except, pure_eq_ok, windowIndex]

theorem takeWhile_len_le (p : Int → Bool) (l : List Int) :
    (l.takeWhile p).length ≤ l.length := by
  induction l with
  | nil => simp
  | cons a t ih =>
      cases h : p a <;> simp [List.takeWhile, h] <;> omega

theorem pointsFrom_eq (df : DataFrame) (s : Int) :
    pointsFrom df s =
      df.index.length - (df.index.takeWhile (fun t => t < s)).length := by
  unfold pointsFrom
  rw [index_locFrom, List.length_drop]

/-- The length of the window's index for a valid horizon. -/
theorem windowIndex_length (df : DataFrame) (s p : Int) (hp0 : 0 ≤ p)
    (hp1 : p ≤ 119) :
    (windowIndex df s p).length = pointsFrom df s - (120 - p).toNat := by
  unfold windowIndex
  rw [index_trimTail, List.length_take]
  have hpts : (df.locFrom s).index.length = pointsFrom df s := rfl
  rw [hpts, pySliceStop_horizon _ p hp0 hp1]
  omega

/-- The length of a windowed column for a valid horizon, given the column
is as long as the full index. -/
theorem windowCol_length (df : DataFrame) (s p : Int) (ys : List Int)
    (hp0 : 0 ≤ p) (hp1 : p ≤ 119) (hlen : ys.length = df.index.length) :
    (windowCol df s p ys).length = pointsFrom df s - (120 - p).toNat := by
  unfold windowCol
  rw [List.length_take, List.length_drop, hlen,
    pySliceStop_horizon _ p hp0 hp1, pointsFrom_eq]
  have hk := takeWhile_len_le (fun t => t < s) df.index
  omega

/-- When the sub-range at or after `start` has at most `120 - proy` records,
the window's index is empty. -/
theorem windowIndex_eq_nil (df : DataFrame) (s p : Int) (hp0 : 0 ≤ p)
    (hp1 : p ≤ 119) (hsmall : pointsFrom df s ≤ (120 - p).toNat) :
    windowIndex df s p = [] := by
  unfold windowIndex
  rw [index_trimTail]
  have hpts : (df.locFrom s).index.length = pointsFrom df s := rfl
  rw [hpts, pySliceStop_horizon _ p hp0 hp1]
  have : pointsFrom df s - (120 - p).toNat = 0 := by omega
  simp [this]

/-- When the sub-range at or after `start` has at most `120 - proy` records,
every windowed column is empty. -/
theorem windowCol_eq_nil (df : DataFrame) (s p : Int) (ys : List Int)
    (hp0 : 0 ≤ p) (hp1 : p ≤ 119)
    (hsmall : pointsFrom df s ≤ (120 - p).toNat) :
    windowCol df s p ys = [] := by
  unfold windowCol
  rw [pySliceStop_horizon _ p hp0 hp1]
  have : pointsFrom df s - (120 - p).toNat = 0 := by omega
  simp [this]

/-- Unpacking `DataFrame.HasRequiredCols` into the four `lookup` facts. -/
theorem hasRequiredCols_lookup (df : DataFrame) (hc : df.HasRequiredCols) :
    ∃ yd yf yu yl,
      df.cols.lookup "AT_load_actual_entsoe_transparency" = some yd ∧
      df.cols.lookup "forecast" = some yf ∧
      df.cols.lookup "Upper bound" = some yu ∧
      df.cols.lookup "Lower bound" = some yl := by
  have h1 := hc "AT_load_actual_entsoe_transparency" (by simp [requiredCols])
  have h2 := hc "forecast" (by simp [requiredCols])
  have h3 := hc "Upper bound" (by simp [requiredCols])
  have h4 := hc "Lower bound" (by simp [requiredCols])
  obtain ⟨yd, hyd⟩ := Option.isSome_iff_exists.mp h1
  obtain ⟨yf, hyf⟩ := Option.isSome_iff_exists.mp h2
  obtain ⟨yu, hyu⟩ := Option.isSome_iff_exists.mp h3
  obtain ⟨yl, hyl⟩ := Option.isSome_iff_exists.mp h4
  exact ⟨yd, yf, yu, yl, hyd, hyf, hyu, hyl⟩

/-- The length of a column looked up in a well-formed frame. -/
theorem col_length_of_lookup (df : DataFrame) (hwf : df.WF) {c : String}
    {ys : List Int} (h : df.cols.lookup c = some ys) :
    ys.length = df.index.length :=
  hwf (c, ys) (mem_of_lookup_some h)

theorem getCol_error_shape {df : DataFrame} {c : String} {e : PyError}
    (h : df.getCol c = .error e) : e = .keyError c := by
  unfold DataFrame.getCol at h
  cases hl : df.cols.lookup c <;> rw [hl] at h
  · simpa using h.symm
  · simp at h

/-! ## Claim theorems -/

/-- C8: `plot_series` is a pure, deterministic function of
`(table, start, horizonHours)`: two invocations with identical arguments
yield bit-identical figures — in the embedding it is a function with no
hidden state, so the two results are definitionally the same value. -/
theorem plot_series_deterministic (df : DataFrame) (s p : Int) :
    plot_series df s p = plot_series df s p := rfl

/-- C3: whenever at least one callback input (`date`, `hour`, `proy`) is
absent (`None`), `update_output_div` returns nothing — the guard fails before
`plot_series` is reached — and the previously rendered figure remains
displayed unchanged. -/
theorem incomplete_input_noop (df : DataFrame) (prev : Option Figure)
    (date hour proy : Option Int)
    (h : date = none ∨ hour = none ∨ proy = none) :
    update_output_div df date hour proy = none ∧
      displayedFigure prev (update_output_div df date hour proy) = prev := by
  have hnone : update_output_div df date hour proy = none := by
    cases date <;> cases hour <;> cases proy <;>
      simp [update_output_div] <;> simp at h
  rw [hnone]
  exact ⟨rfl, rfl⟩

/-- Witness for C3 at `date = None`: the callback returns nothing and a
previously displayed figure survives untouched. -/
theorem incomplete_input_noop_witness :
    update_output_div ⟨[], []⟩ none (some 0) (some 0) = none ∧
      displayedFigure none (update_output_div ⟨[], []⟩ none (some 0) (some 0)) =
        none :=
  incomplete_input_noop ⟨[], []⟩ none none (some 0) (some 0) (Or.inl rfl)

/-- C10: the hour dropdown offers `24` among its options (`np.arange(0,25)`),
and selecting it makes the callback raise a `ValueError` from
`pd.to_datetime(..., format="%Y-%m-%d %H:%M")` — the string `"<date> 24:0"`
has no valid `%H` field — instead of producing a chart, for every table, date
and horizon. -/
theorem hour24_parse_error (df : DataFrame) (d p : Int) :
    (24 : Int) ∈ hour_dropdown_options ∧
      update_output_div df (some d) (some 24) (some p) =
        some (.error .valueError) := by
  constructor
  · decide
  · simp [update_output_div, to_datetime_fmt, bind_error_except]

/-- C4: a table lacking the `Lower bound` column makes `plot_series` fail
with a missing-column `KeyError` (the spec's `MissingFieldError`) for every
start and horizon; no partial figure with only the other series is
returned. -/
theorem missing_lower_bound_fails (df : DataFrame) (s p : Int)
    (h : df.cols.lookup "Lower bound" = none) :
    ∃ c, plot_series df s p = .error (.keyError c) := by
  have hnone :
      ((df.locFrom s).trimTail (120 - p)).cols.lookup "Lower bound" = none := by
    simp only [DataFrame.trimTail, DataFrame.locFrom]
    rw [lookup_map_snd, lookup_map_snd, h]
    rfl
  have hg4 : ((df.locFrom s).trimTail (120 - p)).getCol "Lower bound" =
      .error (.keyError "Lower bound") := by
    unfold DataFrame.getCol
    rw [hnone]
  cases hg1 : ((df.locFrom s).trimTail (120 - p)).getCol
      "AT_load_actual_entsoe_transparency" with
  | error e =>
      refine ⟨"AT_load_actual_entsoe_transparency", ?_⟩
      rw [getCol_error_shape hg1] at hg1
      simp [plot_series, hg1, bind_error_except]
  | ok yd =>
      cases hg2 : ((df.locFrom s).trimTail (120 - p)).getCol "forecast" with
      | error e =>
          refine ⟨"forecast", ?_⟩
          rw [getCol_error_shape hg2] at hg2
          simp [plot_series, hg1, hg2, bind_ok_except, bind_error_except]
      | ok yf =>
          cases hg3 : ((df.locFrom s).trimTail (120 - p)).getCol "Upper bound"
            with
          | error e =>
              refine ⟨"Upper bound", ?_⟩
              rw [getCol_error_shape hg3] at hg3
              simp [plot_series, hg1, hg2, hg3, bind_ok_except,
                bind_error_except]
          | ok yu =>
              refine ⟨"Lower bound", ?_⟩
              simp [plot_series, hg1, hg2, hg3, hg4, bind_ok_except,
                bind_error_except]

/-- A concrete table with every required column except `Lower bound`. -/
def noLowerTable : DataFrame :=
  ⟨[0, 1], [("AT_load_actual_entsoe_transparency", [10, 11]),
            ("forecast", [12, 13]), ("Upper bound", [14, 15])]⟩

/-- Witness for C4: the concrete table missing `Lower bound` makes
`plot_series` raise a `KeyError`. -/
theorem missing_lower_bound_fails_witness :
    ∃ c, plot_series noLowerTable 0 0 = .error (.keyError c) :=
  missing_lower_bound_fails noLowerTable 0 0 (by decide)

/-- Shared helper: under a well-formed table with all required columns and a
valid horizon, `plot_series` succeeds and every trace's `x` and `y` both have
length `pointsFrom − (120 − proy)` (truncated at `0`). -/
theorem plot_series_trace_lengths (df : DataFrame) (s p : Int)
    (hwf : df.WF) (hc : df.HasRequiredCols) (hp0 : 0 ≤ p) (hp1 : p ≤ 119) :
    ∃ fig, plot_series df s p = .ok fig ∧ fig.traces.length = 4 ∧
      ∀ tr ∈ fig.traces,
        tr.x.length = pointsFrom df s - (120 - p).toNat ∧
        tr.y.length = pointsFrom df s - (120 - p).toNat := by
  obtain ⟨yd, yf, yu, yl, h1, h2, h3, h4⟩ := hasRequiredCols_lookup df hc
  refine ⟨_, plot_series_ok_eq df s p yd yf yu yl h1 h2 h3 h4, rfl, ?_⟩
  intro tr htr
  have hx := windowIndex_length df s p hp0 hp1
  have hd := windowCol_length df s p yd hp0 hp1 (col_length_of_lookup df hwf h1)
  have hf := windowCol_length df s p yf hp0 hp1 (col_length_of_lookup df hwf h2)
  have hu := windowCol_length df s p yu hp0 hp1 (col_length_of_lookup df hwf h3)
  have hl := windowCol_length df s p yl hp0 hp1 (col_length_of_lookup df hwf h4)
  simp only [List.mem_cons, List.not_mem_nil, or_false] at htr
  rcases htr with rfl | rfl | rfl | rfl
  · exact ⟨hx, hd⟩
  · exact ⟨hx, hf⟩
  · exact ⟨hx, hu⟩
  · exact ⟨hx, hl⟩

/-- C1: for a well-formed sorted table with the required columns, a valid
horizon `0 ≤ proy ≤ 119` and a start at least 120 points before the table's
end, `plot_series` returns four series of equal length
`pointsFrom − (120 − proy)`; in particular `proy = 119` removes exactly one
record from the selected sub-range and `proy = 0` removes exactly 120. -/
theorem chart_series_length (df : DataFrame) (s p : Int)
    (hMono : List.Sorted (· ≤ ·) df.index) (hwf : df.WF)
    (hc : df.HasRequiredCols) (hp0 : 0 ≤ p) (hp1 : p ≤ 119)
    (hstart : 120 ≤ pointsFrom df s) :
    ∃ fig, plot_series df s p = .ok fig ∧ fig.traces.length = 4 ∧
      (∀ tr ∈ fig.traces,
        tr.x.length = pointsFrom df s - (120 - p).toNat ∧
        tr.y.length = pointsFrom df s - (120 - p).toNat) ∧
      (p = 119 → ∀ tr ∈ fig.traces, tr.x.length = pointsFrom df s - 1) ∧
      (p = 0 → ∀ tr ∈ fig.traces, tr.x.length = pointsFrom df s - 120) := by
  obtain ⟨fig, hok, h4, hlens⟩ :=
    plot_series_trace_lengths df s p hwf hc hp0 hp1
  refine ⟨fig, hok, h4, hlens, ?_, ?_⟩
  · intro hp tr htr
    have h := (hlens tr htr).1
    subst hp
    omega
  · intro hp tr htr
    have h := (hlens tr htr).1
    subst hp
    omega

/-- C9: for a well-formed sorted table with the required columns and a valid
horizon, the slicing in `plot_series` is total — it returns a figure (never
raises), every trace has the truncated length `pointsFrom − (120 − proy)`
(never negative), and whenever the sub-range at or after `start` has at most
`120 − proy` records all four series are empty. -/
theorem slicing_total (df : DataFrame) (s p : Int)
    (hMono : List.Sorted (· ≤ ·) df.index) (hwf : df.WF)
    (hc : df.HasRequiredCols) (hp0 : 0 ≤ p) (hp1 : p ≤ 119) :
    ∃ fig, plot_series df s p = .ok fig ∧
      (∀ tr ∈ fig.traces,
        tr.x.length = pointsFrom df s - (120 - p).toNat ∧
        tr.y.length = pointsFrom df s - (120 - p).toNat) ∧
      (pointsFrom df s ≤ (120 - p).toNat →
        ∀ tr ∈ fig.traces, tr.x = [] ∧ tr.y = []) := by
  obtain ⟨fig, hok, h4, hlens⟩ :=
    plot_series_trace_lengths df s p hwf hc hp0 hp1
  refine ⟨fig, hok, hlens, ?_⟩
  intro hsmall tr htr
  obtain ⟨hxl, hyl⟩ := hlens tr htr
  constructor
  · exact List.length_eq_zero.mp (by omega)
  · exact List.length_eq_zero.mp (by omega)

/-- A table with all four required columns but no rows at all. -/
def emptyTable : DataFrame := ⟨[], requiredCols.map (fun c => (c, []))⟩

/-- The per-trace x-lengths of a `plot_series` result, `none` on failure. -/
def traceLengths (r : Except PyError Figure) : Option (List Nat) :=
  r.toOption.map (fun f => f.traces.map (fun tr => tr.x.length))

/-- Counterexample to C2 as stated: on the empty (but well-formed,
fully-columned) table with `start = 0`, raising the horizon from `0` to `1`
leaves every series length at `0` — the length does not increase by exactly
one for every table and start. -/
theorem horizon_monotone_counterexample :
    traceLengths (plot_series emptyTable 0 0) = some [0, 0, 0, 0] ∧
      traceLengths (plot_series emptyTable 0 (0 + 1)) = some [0, 0, 0, 0] ∧
      traceLengths (plot_series emptyTable 0 (0 + 1)) ≠
        (traceLengths (plot_series emptyTable 0 0)).map
          (fun ls => ls.map (fun n => n + 1)) := by
  refine ⟨by decide, by decide, by decide⟩

/-- C2 (amended): for a well-formed sorted table with the required columns,
a fixed start, and horizons `proy` and `proy + 1` both in `[0, 119]`,
*provided the sub-range at or after `start` has at least `120 − proy`
records*, raising the horizon by one makes every series exactly one point
longer. -/
theorem horizon_monotone (df : DataFrame) (s p : Int)
    (hMono : List.Sorted (· ≤ ·) df.index) (hwf : df.WF)
    (hc : df.HasRequiredCols) (hp0 : 0 ≤ p) (hp1 : p + 1 ≤ 119)
    (hn : (120 - p).toNat ≤ pointsFrom df s) :
    ∃ fig fig', plot_series df s p = .ok fig ∧
      plot_series df s (p + 1) = .ok fig' ∧
      fig.traces.length = 4 ∧ fig'.traces.length = 4 ∧
      ∀ tr ∈ fig.traces, ∀ tr' ∈ fig'.traces,
        tr'.x.length = tr.x.length + 1 ∧ tr'.y.length = tr.y.length + 1 := by
  obtain ⟨fig, hok, h4, hlens⟩ :=
    plot_series_trace_lengths df s p hwf hc hp0 (by omega)
  obtain ⟨fig', hok', h4', hlens'⟩ :=
    plot_series_trace_lengths df s (p + 1) hwf hc (by omega) (by omega)
  refine ⟨fig, fig', hok, hok', h4, h4', ?_⟩
  intro tr htr tr' htr'
  obtain ⟨hxl, hyl⟩ := hlens tr htr
  obtain ⟨hxl', hyl'⟩ := hlens' tr' htr'
  constructor <;> omega

/-- C5: whenever `plot_series` returns a figure, it contains exactly four
traces and all of them carry the same x-coordinate sequence (the window's
timestamps), for every table, start and horizon. -/
theorem chart_traces_share_x (df : DataFrame) (s p : Int) (fig : Figure)
    (h : plot_series df s p = .ok fig) :
    fig.traces.length = 4 ∧
      ∀ tr ∈ fig.traces, ∀ tr' ∈ fig.traces, tr.x = tr'.x := by
  cases hg1 : ((df.locFrom s).trimTail (120 - p)).getCol
      "AT_load_actual_entsoe_transparency" with
  | error e => simp [plot_series, hg1, bind_error_except] at h
  | ok yd =>
    cases hg2 : ((df.locFrom s).trimTail (120 - p)).getCol "forecast" with
    | error e =>
        simp [plot_series, hg1, hg2, bind_ok_except, bind_error_except] at h
    | ok yf =>
      cases hg3 : ((df.locFrom s).trimTail (120 - p)).getCol "Upper bound" with
      | error e =>
          simp [plot_series, hg1, hg2, hg3, bind_ok_except,
            bind_error_except] at h
      | ok yu =>
        cases hg4 : ((df.locFrom s).trimTail (120 - p)).getCol "Lower bound"
          with
        | error e =>
            simp [plot_series, hg1, hg2, hg3, hg4, bind_ok_except,
              bind_error_except] at h
        | ok yl =>
            simp [plot_series, hg1, hg2, hg3, hg4, bind_ok_except,
              pure_eq_ok] at h
            subst h
            refine ⟨rfl, ?_⟩
            intro tr htr tr' htr'
            simp only [List.mem_cons, List.not_mem_nil, or_false] at htr htr'
            rcases htr with rfl | rfl | rfl | rfl <;>
              rcases htr' with rfl | rfl | rfl | rfl <;> rfl

/-- C7: for every table with the four required columns and every valid start
and horizon, `plot_series` returns exactly four traces in order — observed
demand as a solid green line, the forecast as a pale line, the upper bound as
an invisible (width-0) line without legend entry, and the lower bound as an
invisible line without legend entry filled to the previous (upper-bound)
trace — plus a horizontal legend anchored top-right above the plot area,
transparent backgrounds, hover-by-x, gridlines on both axes and the fixed
megawatt y-axis label. -/
theorem chart_structure (df : DataFrame) (s p : Int)
    (hc : df.HasRequiredCols) (hp0 : 0 ≤ p) (hp1 : p ≤ 119) :
    ∃ fig, plot_series df s p = .ok fig ∧
      ∃ t1 t2 t3 t4, fig.traces = [t1, t2, t3, t4] ∧
      t1.name = "Demanda energética" ∧ t1.mode = "lines" ∧
      t1.lineColor = some "#188463" ∧ t1.lineWidth = none ∧
      t1.showlegend = true ∧ t1.fill = none ∧
      t2.name = "Proyección" ∧ t2.mode = "lines" ∧
      t2.lineColor = some "#bbffeb" ∧ t2.showlegend = true ∧ t2.fill = none ∧
      t3.name = "Upper Bound" ∧ t3.mode = "lines" ∧ t3.lineWidth = some 0 ∧
      t3.showlegend = false ∧ t3.fill = none ∧
      t4.name = "Lower Bound" ∧ t4.mode = "lines" ∧ t4.lineWidth = some 0 ∧
      t4.showlegend = false ∧ t4.fill = some "tonexty" ∧
      t4.fillcolor = some "rgba(242, 255, 251, 0.3)" ∧
      fig.layout.legend.orientation = "h" ∧
      fig.layout.legend.xanchor = "right" ∧ fig.layout.legend.xPos = 1 ∧
      fig.layout.legend.yanchor = "bottom" ∧
      fig.layout.legend.yPos = (102 : Rat) / 100 ∧
      fig.layout.paperBgcolor = "rgba(0,0,0,0)" ∧
      fig.layout.plotBgcolor = "rgba(0,0,0,0)" ∧
      fig.layout.hovermode = "x" ∧
      fig.layout.xaxisShowgrid = true ∧ fig.layout.yaxisShowgrid = true ∧
      fig.layout.yaxisTitle = "Demanda total [MW]" := by
  obtain ⟨yd, yf, yu, yl, h1, h2, h3, h4⟩ := hasRequiredCols_lookup df hc
  refine ⟨_, plot_series_ok_eq df s p yd yf yu yl h1 h2 h3 h4, ?_⟩
  refine ⟨_, _, _, _, rfl, ?_⟩
  and_intros <;> rfl

theorem sorted_head_le {l : List Int} (hs : l.Sorted (· ≤ ·)) {a x : Int}
    (hh : l.head? = some a) (hx : x ∈ l) : a ≤ x := by
  cases l with
  | nil => cases hx
  | cons b t =>
      simp only [List.head?_cons, Option.some.injEq] at hh
      subst hh
      rcases List.mem_cons.mp hx with rfl | hxt
      · exact le_refl x
      · exact (List.sorted_cons.mp hs).1 x hxt

theorem sorted_le_getLast {l : List Int} (hs : l.Sorted (· ≤ ·)) {a x : Int}
    (hh : l.getLast? = some a) (hx : x ∈ l) : x ≤ a := by
  induction l with
  | nil => cases hx
  | cons b t ih =>
      cases t with
      | nil =>
          simp only [List.getLast?_singleton, Option.some.injEq] at hh
          rcases List.mem_cons.mp hx with rfl | hxt
          · omega
          · cases hxt
      | cons c t2 =>
          have hh' : (c :: t2).getLast? = some a := by
            rw [List.getLast?_cons_cons] at hh
            exact hh
          obtain ⟨hble, hst⟩ := List.sorted_cons.mp hs
          rcases List.mem_cons.mp hx with rfl | hxt
          · exact hble a (List.mem_of_mem_getLast? hh')
          · exact ih hst hh' hxt

/-- A CSV whose rows are not chronological: timestamps `[5, 3]`. -/
def unsortedCsv : CsvSource := ⟨[5, 3], [("forecast", [1, 2])]⟩

/-- Counterexample to C6 as stated: loading a source file whose rows are out
of order preserves the file order (the loader does not sort), so the first
index entry is `5` although the file contains the smaller timestamp `3`, and
the last index entry is `3` although the file contains the larger `5`. -/
theorem load_roundtrip_counterexample :
    (load_data unsortedCsv).index.head? = some 5 ∧
      (load_data unsortedCsv).index.getLast? = some 3 ∧
      (∃ t ∈ unsortedCsv.times, t < 5) ∧
      (∃ t ∈ unsortedCsv.times, 3 < t) := by
  refine ⟨rfl, rfl, ⟨3, by decide⟩, ⟨5, by decide⟩⟩

/-- C6 (amended): for every source file whose timestamps are already
chronological (ascending) and nonempty, the first and last entries of the
loaded table's index are the minimum and maximum timestamps present in the
source file. -/
theorem load_roundtrip (src : CsvSource) (hne : src.times ≠ [])
    (hs : src.times.Sorted (· ≤ ·)) :
    ∃ first lastT, (load_data src).index.head? = some first ∧
      (load_data src).index.getLast? = some lastT ∧
      first ∈ src.times ∧ lastT ∈ src.times ∧
      ∀ t ∈ src.times, first ≤ t ∧ t ≤ lastT := by
  have hidx : (load_data src).index = src.times := rfl
  obtain ⟨b, t, hbt⟩ := List.exists_cons_of_ne_nil hne
  have hh : src.times.head? = some b := by rw [hbt]; rfl
  have hl : ∃ lastT, src.times.getLast? = some lastT := by
    rw [hbt]
    exact ⟨(b :: t).getLast (by simp), List.getLast?_eq_getLast _ _⟩
  obtain ⟨lastT, hlast⟩ := hl
  refine ⟨b, lastT, by rw [hidx]; exact hh, by rw [hidx]; exact hlast,
    ?_, List.mem_of_mem_getLast? hlast, ?_⟩
  · rw [hbt]; exact List.mem_cons_self b t
  · intro x hx
    exact ⟨sorted_head_le hs hh hx, sorted_le_getLast hs hlast hx⟩

/-- Witness for C6 (amended) on the chronological source `[1, 2, 4]`. -/
theorem load_roundtrip_witness :
    ∃ first lastT,
      (load_data ⟨[1, 2, 4], []⟩).index.head? = some first ∧
      (load_data ⟨[1, 2, 4], []⟩).index.getLast? = some lastT ∧
      first ∈ (⟨[1, 2, 4], []⟩ : CsvSource).times ∧
      lastT ∈ (⟨[1, 2, 4], []⟩ : CsvSource).times ∧
      ∀ t ∈ (⟨[1, 2, 4], []⟩ : CsvSource).times, first ≤ t ∧ t ≤ lastT :=
  load_roundtrip ⟨[1, 2, 4], []⟩ (by decide) (by decide)

/-- A well-formed chronological table with 130 hourly rows and all four
required columns. -/
def sampleTable : DataFrame :=
  ⟨(List.range 130).map (fun i => (i : Int)),
   requiredCols.map (fun c => (c, (List.range 130).map (fun i => (i : Int))))⟩

/-- A well-formed chronological table with only 4 rows. -/
def smallTable : DataFrame :=
  ⟨[0, 1, 2, 3], requiredCols.map (fun c => (c, [10, 11, 12, 13]))⟩

set_option maxRecDepth 100000 in
/-- Witness for C1 at `sampleTable`, `start = 0`, `proy = 5`. -/
theorem chart_series_length_witness :
    ∃ fig, plot_series sampleTable 0 5 = .ok fig ∧ fig.traces.length = 4 ∧
      (∀ tr ∈ fig.traces,
        tr.x.length = pointsFrom sampleTable 0 - ((120 : Int) - 5).toNat ∧
        tr.y.length = pointsFrom sampleTable 0 - ((120 : Int) - 5).toNat) ∧
      ((5 : Int) = 119 →
        ∀ tr ∈ fig.traces, tr.x.length = pointsFrom sampleTable 0 - 1) ∧
      ((5 : Int) = 0 →
        ∀ tr ∈ fig.traces, tr.x.length = pointsFrom sampleTable 0 - 120) :=
  chart_series_length sampleTable 0 5 (by decide) (by decide) (by decide)
    (by decide) (by decide) (by decide)

set_option maxRecDepth 100000 in
/-- Witness for C2 (amended) at `sampleTable`, `start = 0`, `proy = 5`. -/
theorem horizon_monotone_witness :
    ∃ fig fig', plot_series sampleTable 0 5 = .ok fig ∧
      plot_series sampleTable 0 (5 + 1) = .ok fig' ∧
      fig.traces.length = 4 ∧ fig'.traces.length = 4 ∧
      ∀ tr ∈ fig.traces, ∀ tr' ∈ fig'.traces,
        tr'.x.length = tr.x.length + 1 ∧ tr'.y.length = tr.y.length + 1 :=
  horizon_monotone sampleTable 0 5 (by decide) (by decide) (by decide)
    (by decide) (by decide) (by decide)

/-- Witness for C9 at `smallTable`, `start = 2`, `proy = 7`: only 2 points
remain from `start`, fewer than `120 − 7`, so all series come out empty. -/
theorem slicing_total_witness :
    ∃ fig, plot_series smallTable 2 7 = .ok fig ∧
      (∀ tr ∈ fig.traces,
        tr.x.length = pointsFrom smallTable 2 - ((120 : Int) - 7).toNat ∧
        tr.y.length = pointsFrom smallTable 2 - ((120 : Int) - 7).toNat) ∧
      (pointsFrom smallTable 2 ≤ ((120 : Int) - 7).toNat →
        ∀ tr ∈ fig.traces, tr.x = [] ∧ tr.y = []) :=
  slicing_total smallTable 2 7 (by decide) (by decide) (by decide)
    (by decide) (by decide)

/-- Witness for C7 at `smallTable`, `start = 0`, `proy = 0`. -/
theorem chart_structure_witness :
    ∃ fig, plot_series smallTable 0 0 = .ok fig ∧
      ∃ t1 t2 t3 t4, fig.traces = [t1, t2, t3, t4] ∧
      t1.name = "Demanda energética" ∧ t1.mode = "lines" ∧
      t1.lineColor = some "#188463" ∧ t1.lineWidth = none ∧
      t1.showlegend = true ∧ t1.fill = none ∧
      t2.name = "Proyección" ∧ t2.mode = "lines" ∧
      t2.lineColor = some "#bbffeb" ∧ t2.showlegend = true ∧ t2.fill = none ∧
      t3.name = "Upper Bound" ∧ t3.mode = "lines" ∧ t3.lineWidth = some 0 ∧
      t3.showlegend = false ∧ t3.fill = none ∧
      t4.name = "Lower Bound" ∧ t4.mode = "lines" ∧ t4.lineWidth = some 0 ∧
      t4.showlegend = false ∧ t4.fill = some "tonexty" ∧
      t4.fillcolor = some "rgba(242, 255, 251, 0.3)" ∧
      fig.layout.legend.orientation = "h" ∧
      fig.layout.legend.xanchor = "right" ∧ fig.layout.legend.xPos = 1 ∧
      fig.layout.legend.yanchor = "bottom" ∧
      fig.layout.legend.yPos = (102 : Rat) / 100 ∧
      fig.layout.paperBgcolor = "rgba(0,0,0,0)" ∧
      fig.layout.plotBgcolor = "rgba(0,0,0,0)" ∧
      fig.layout.hovermode = "x" ∧
      fig.layout.xaxisShowgrid = true ∧ fig.layout.yaxisShowgrid = true ∧
      fig.layout.yaxisTitle = "Demanda total [MW]" :=
  chart_structure smallTable 0 0 (by decide) (by decide) (by decide)

/-- The figure `plot_series` yields on `smallTable` with `start = 0`,
`proy = 0`: the trim leaves an empty window, four empty traces. -/
def emptyWindowFig : Figure :=
  { traces :=
      [ { name := "Demanda energética", x := [], y := [], mode := "lines",
          lineColor := some "#188463", lineWidth := none, markerColor := none,
          fill := none, fillcolor := none, showlegend := true },
        { name := "Proyección", x := [], y := [], mode := "lines",
          lineColor := some "#bbffeb", lineWidth := none, markerColor := none,
          fill := none, fillcolor := none, showlegend := true },
        { name := "Upper Bound", x := [], y := [], mode := "lines",
          lineColor := none, lineWidth := some 0, markerColor := some "#444",
          fill := none, fillcolor := none, showlegend := false },
        { name := "Lower Bound", x := [], y := [], mode := "lines",
          lineColor := none, lineWidth := some 0, markerColor := some "#444",
          fill := some "tonexty", fillcolor := some "rgba(242, 255, 251, 0.3)",
          showlegend := false } ],
    layout := plotSeriesLayout }

/-- Witness for C5 at `smallTable`, `start = 0`, `proy = 0`. -/
theorem chart_traces_share_x_witness :
    emptyWindowFig.traces.length = 4 ∧
      ∀ tr ∈ emptyWindowFig.traces, ∀ tr' ∈ emptyWindowFig.traces,
        tr.x = tr'.x :=
  chart_traces_share_x smallTable 0 0 emptyWindowFig rfl
